import Mathlib

set_option autoImplicit false

/-
Verification of the viva specification registry and reconciliation engine.

The definitions below are a shallow embedding of the Rust sources:
  src/models/environment.rs  (VivaEnvSpec, VivaEnv, DefaultEnvCollection)
  src/models/mod.rs          (read_model_spec / write_model_spec codec dispatch)
  src/context.rs             (VivaContext registration and load)

File-system reads and writes are made explicit: a function that in Rust reads
a file takes the parsed content (or an Option when the file may be absent) as
an argument, and a function that writes a file returns the chosen
serialization format together with the value written.  The external
materializer (rattler create) is represented by a boolean outcome argument.
-/

namespace Viva

/-- EnvSyncStatus from src/models/environment.rs (lines 25-30). -/
inductive EnvSyncStatus where
  | Synced
  | NotSynced
  | Unknown
deriving Repr, DecidableEq

/-- VivaEnvSpec from src/models/environment.rs (lines 43-47): a desired-state
record of channels and package specifiers, both ordered lists of strings. -/
structure VivaEnvSpec where
  channels : List String
  pkg_specs : List String
deriving Repr, DecidableEq

/-- VivaEnvSpec::new (environment.rs lines 154-159): the empty spec. -/
def VivaEnvSpec.new : VivaEnvSpec :=
  { channels := [], pkg_specs := [] }

/-- The PartialEq impl for VivaEnvSpec (environment.rs lines 49-63):
pkg_specs compared as lists (order-sensitive), channels compared after
sorting (order-insensitive). -/
def specEq (a b : VivaEnvSpec) : Bool :=
  if a.pkg_specs ≠ b.pkg_specs then
    false
  else
    (a.channels.mergeSort (fun x y => decide (x ≤ y)))
      = (b.channels.mergeSort (fun x y => decide (x ≤ y)))

/-- check_for_new_pkg_specs (environment.rs lines 94-106): the elements of
new_matchspec that are absent from orig_matchspec, in the order of
new_matchspec. -/
def check_for_new_pkg_specs (orig_matchspec : List String) :
    List String → List String
  | [] => []
  | s :: rest =>
    if orig_matchspec.contains s then
      check_for_new_pkg_specs orig_matchspec rest
    else
      s :: check_for_new_pkg_specs orig_matchspec rest

/-- check_for_new_channels (environment.rs lines 108-116): the elements of
new_channels that are absent from orig_channels, in order. -/
def check_for_new_channels (orig_channels : List String) :
    List String → List String
  | [] => []
  | c :: rest =>
    if orig_channels.contains c then
      check_for_new_channels orig_channels rest
    else
      c :: check_for_new_channels orig_channels rest

/-- VivaEnvSpec::is_satisfied_by (environment.rs lines 128-139): self (the
desired spec) is satisfied by other_spec (the actual spec) when no channel
and no pkg_spec of self is new relative to other_spec. -/
def VivaEnvSpec.is_satisfied_by (self other_spec : VivaEnvSpec) : Bool :=
  let new_channels := check_for_new_channels other_spec.channels self.channels
  if ¬ new_channels.isEmpty then
    false
  else
    let new_matchspecs := check_for_new_pkg_specs other_spec.pkg_specs self.pkg_specs
    if ¬ new_matchspecs.isEmpty then
      false
    else
      true

/-- The accumulation loop shared by VivaEnv::add_channels (environment.rs
lines 320-329) and VivaEnv::add_pkg_specs (lines 336-345) at the list level:
each element of the second list that is not already contained in the
accumulated list is pushed at the end. -/
def addDistinct (cur : List String) : List String → List String
  | [] => cur
  | x :: rest =>
    if cur.contains x then
      addDistinct cur rest
    else
      addDistinct (cur ++ [x]) rest

/-- The MergeEngine union merge: VivaEnv::merge_spec (environment.rs lines
312-318) runs the add_channels loop on channels and the add_pkg_specs loop on
pkg_specs, so at the spec level merging b into a applies addDistinct to both
components. -/
def union_merge (a b : VivaEnvSpec) : VivaEnvSpec :=
  { channels := addDistinct a.channels b.channels
    pkg_specs := addDistinct a.pkg_specs b.pkg_specs }

/-- VivaEnv from src/models/environment.rs (lines 142-151).  Paths are plain
strings here; they are only carried around by the operations we model. -/
structure VivaEnv where
  id : String
  collection_id : String
  env_path : String
  spec : VivaEnvSpec
  actual_spec_path : String
  actual : VivaEnvSpec
  sync_status : EnvSyncStatus
deriving Repr, DecidableEq

/-- VivaEnv::create (environment.rs lines 167-185): a plain constructor that
stores every argument, including the caller-supplied sync_status. -/
def VivaEnv.create (id collection_id : String) (spec : VivaEnvSpec)
    (env_path : String) (actual : VivaEnvSpec) (actual_spec_path : String)
    (sync_status : EnvSyncStatus) : VivaEnv :=
  { id := id, collection_id := collection_id, env_path := env_path
    spec := spec, actual_spec_path := actual_spec_path, actual := actual
    sync_status := sync_status }

/-- VivaEnv::check_and_update_sync_status (environment.rs lines 304-310):
recompute sync_status as Synced exactly when the desired spec is satisfied by
the actual spec, NotSynced otherwise. -/
def VivaEnv.check_and_update_sync_status (e : VivaEnv) : VivaEnv :=
  let sync_status :=
    match e.spec.is_satisfied_by e.actual with
    | true => EnvSyncStatus.Synced
    | false => EnvSyncStatus.NotSynced
  { e with sync_status := sync_status }

/-- The loop of VivaEnv::add_channels (environment.rs lines 321-326): each
channel not yet in spec.channels is pushed and sync_status is set to
Unknown. -/
def addChannelsLoop (e : VivaEnv) : List String → VivaEnv
  | [] => e
  | c :: rest =>
    if e.spec.channels.contains c then
      addChannelsLoop e rest
    else
      addChannelsLoop
        { e with spec := { e.spec with channels := e.spec.channels ++ [c] }
                 sync_status := EnvSyncStatus.Unknown } rest

/-- VivaEnv::add_channels (environment.rs lines 320-329): run the push loop,
then unconditionally recompute the sync status.  The Rust function returns
Ok(&self.spec.channels); the returned list is spec.channels of the result, so
we model only the state change. -/
def VivaEnv.add_channels (e : VivaEnv) (channels : List String) : VivaEnv :=
  (addChannelsLoop e channels).check_and_update_sync_status

/-- The loop of VivaEnv::add_pkg_specs (environment.rs lines 337-342). -/
def addPkgSpecsLoop (e : VivaEnv) : List String → VivaEnv
  | [] => e
  | p :: rest =>
    if e.spec.pkg_specs.contains p then
      addPkgSpecsLoop e rest
    else
      addPkgSpecsLoop
        { e with spec := { e.spec with pkg_specs := e.spec.pkg_specs ++ [p] }
                 sync_status := EnvSyncStatus.Unknown } rest

/-- VivaEnv::add_pkg_specs (environment.rs lines 336-345). -/
def VivaEnv.add_pkg_specs (e : VivaEnv) (pkg_specs : List String) : VivaEnv :=
  (addPkgSpecsLoop e pkg_specs).check_and_update_sync_status

/-- VivaEnv::merge_spec (environment.rs lines 312-318): add_channels with the
argument spec channels, then add_pkg_specs with its pkg_specs.  Both inner
calls always return Ok, so merge_spec always returns Ok. -/
def VivaEnv.merge_spec (e : VivaEnv) (spec : VivaEnvSpec) : VivaEnv :=
  (e.add_channels spec.channels).add_pkg_specs spec.pkg_specs

/-- VivaEnv::remove_channels (environment.rs lines 331-334): retain only the
spec channels that are not in the argument list; nothing else is touched. -/
def VivaEnv.remove_channels (e : VivaEnv) (channels : List String) : VivaEnv :=
  { e with spec :=
      { e.spec with channels :=
          e.spec.channels.filter (fun c => ¬ channels.contains c) } }

/-- VivaEnv::sync (environment.rs lines 248-302).  The external materializer
(rattler create) is represented by the boolean create_ok; the file write of
the actual spec on success is not observable in the record state.  Returns
the updated record and the Result: Ok false when already synced, Ok true
after a successful materialization, and the propagated error on failure. -/
def VivaEnv.sync (e : VivaEnv) (create_ok : Bool) : VivaEnv × Except Unit Bool :=
  let e1 :=
    if e.sync_status = EnvSyncStatus.Unknown then
      e.check_and_update_sync_status
    else
      e
  if e1.sync_status = EnvSyncStatus.Synced then
    (e1, Except.ok false)
  else if create_ok then
    ({ e1 with actual := e1.spec, sync_status := EnvSyncStatus.Synced },
      Except.ok true)
  else
    (e1, Except.error ())

/-- Modelled from the spec: the constant ENV_SPEC_FILENAME (the per-
environment actual-spec file name of section 6 of the spec) is imported by
src/context.rs from src/defaults.rs, but the copy of defaults.rs in src/ is
an older draft that does not declare it.  Its exact value is irrelevant to
every claim; only the joined path is carried around. -/
def ENV_SPEC_FILENAME : String := "env_spec.json"

/-- VivaContext::create_env_instance (src/context.rs lines 155-189).  The
on-disk actual record is passed as on_disk_actual: some parsed spec when the
actual-spec file exists (the read_model_spec call succeeded), none when the
file does not exist, in which case actual defaults to the empty spec.  The
sync status of the new record is always Unknown. -/
def create_env_instance (base_env_path env_id collection_id : String)
    (env_spec : Option VivaEnvSpec) (on_disk_actual : Option VivaEnvSpec) :
    VivaEnv :=
  let env_path := base_env_path ++ "/" ++ env_id
  let env_spec_file := env_path ++ "/" ++ ENV_SPEC_FILENAME
  let actual_env_spec :=
    match on_disk_actual with
    | some env_actual => env_actual
    | none => { channels := [], pkg_specs := [] }
  let spec :=
    match env_spec with
    | some s => s
    | none => VivaEnvSpec.new
  VivaEnv.create env_id collection_id spec env_path actual_env_spec
    env_spec_file EnvSyncStatus.Unknown

/-- Key membership in a registry map, as BTreeMap::contains_key used by
VivaContext::add_registered_env (context.rs line 255). -/
def containsKey {α : Type} (m : List (String × α)) (k : String) : Bool :=
  m.any (fun p => p.fst = k)

/-- Insertion into a BTreeMap modelled as a key-sorted association list:
replaces the value when the key is present, otherwise inserts in key order. -/
def bmInsert {α : Type} (m : List (String × α)) (k : String) (v : α) :
    List (String × α) :=
  match m with
  | [] => [(k, v)]
  | (k1, v1) :: rest =>
    if k < k1 then (k, v) :: (k1, v1) :: rest
    else if k = k1 then (k, v) :: rest
    else (k1, v1) :: bmInsert rest k v

/-- BTreeMap::get on the association-list model. -/
def bmGet {α : Type} (m : List (String × α)) (k : String) : Option α :=
  match m with
  | [] => none
  | (k1, v1) :: rest => if k = k1 then some v1 else bmGet rest k

/-- BTreeMap::remove on the association-list model (keys are unique, so
removing the first occurrence is removal). -/
def bmRemove {α : Type} (m : List (String × α)) (k : String) :
    List (String × α) :=
  match m with
  | [] => []
  | (k1, v1) :: rest => if k = k1 then rest else (k1, v1) :: bmRemove rest k

/-- Keys of a map in iteration order, as BTreeMap iteration yields them. -/
def bmKeys {α : Type} (m : List (String × α)) : List String :=
  m.map Prod.fst

/-- VivaContext::add_registered_env (context.rs lines 248-274): duplicate ids
are skipped with Ok false when allow_duplicate is set and rejected with an
error otherwise; a fresh id is registered via create_env_instance.  The
on_disk_actual argument feeds create_env_instance as above. -/
def add_registered_env (registered_envs : List (String × VivaEnv))
    (base_env_path env_id collection_id : String) (env_spec : VivaEnvSpec)
    (on_disk_actual : Option VivaEnvSpec) (allow_duplicate : Bool) :
    Except String (List (String × VivaEnv) × Bool) :=
  match containsKey registered_envs env_id with
  | true =>
    if allow_duplicate then
      Except.ok (registered_envs, false)
    else
      Except.error ("Duplicate environment: " ++ env_id)
  | false =>
    let env_instance :=
      create_env_instance base_env_path env_id collection_id (some env_spec)
        on_disk_actual
    Except.ok (bmInsert registered_envs env_id env_instance, true)

/-- DefaultEnvCollection from src/models/environment.rs (lines 446-456).
The two Option-wrapped maps are always Some after load (the only state our
claims are about), so they appear unwrapped here. -/
structure DefaultEnvCollection where
  collected_envs : List (String × VivaEnvSpec)
  single_envs : List (String × VivaEnvSpec)
  collected_envs_dirty : Bool
  single_envs_dirty : List String
deriving Repr, DecidableEq

/-- One iteration of the per-id directory loop of load_registered_envs
(environment.rs lines 513-536): an id that is also in the consolidated map is
removed from it and the dirty bit is set; the per-id spec is inserted into
single_envs either way. -/
def loadEntry (st : DefaultEnvCollection) (entry : String × VivaEnvSpec) :
    DefaultEnvCollection :=
  if containsKey st.collected_envs entry.fst then
    { st with
        collected_envs := bmRemove st.collected_envs entry.fst
        collected_envs_dirty := true
        single_envs := bmInsert st.single_envs entry.fst entry.snd }
  else
    { st with single_envs := bmInsert st.single_envs entry.fst entry.snd }

/-- DefaultEnvCollection::load_registered_envs (environment.rs lines
493-551) on a fresh collection (the path taken by DefaultEnvCollection::
create).  The consolidated argument is the decoded envs.json / envs.yaml
document (empty when the file or the base path does not exist); entries are
the decoded per-id files of the envs subdirectory, as (file stem, spec)
pairs in directory iteration order. -/
def load_registered_envs (consolidated : List (String × VivaEnvSpec))
    (entries : List (String × VivaEnvSpec)) : DefaultEnvCollection :=
  entries.foldl loadEntry
    { collected_envs := consolidated
      single_envs := []
      collected_envs_dirty := false
      single_envs_dirty := [] }

/-- DefaultEnvCollection::get_env_ids (environment.rs lines 593-610): the
keys of collected_envs followed by the keys of single_envs. -/
def DefaultEnvCollection.get_env_ids (st : DefaultEnvCollection) :
    List String :=
  bmKeys st.collected_envs ++ bmKeys st.single_envs

/-- DefaultEnvCollection::get_env (environment.rs lines 612-623): look the
id up in single_envs when present there, otherwise in collected_envs; none
models the NotFound error. -/
def DefaultEnvCollection.get_env (st : DefaultEnvCollection)
    (env_id : String) : Option VivaEnvSpec :=
  if (bmGet st.single_envs env_id).isSome then
    bmGet st.single_envs env_id
  else
    bmGet st.collected_envs env_id

/-- DefaultEnvCollection::set_env (environment.rs lines 642-661): writes the
per-id file (a path with extension yaml) and inserts into single_envs.  The
consolidated map, its dirty bit and the single dirty list are not touched. -/
def DefaultEnvCollection.set_env (st : DefaultEnvCollection)
    (env_id : String) (env_spec : VivaEnvSpec) : DefaultEnvCollection :=
  { st with single_envs := bmInsert st.single_envs env_id env_spec }

/-- DefaultEnvCollection::delete_env (environment.rs lines 625-640): when the
id is in single_envs it is marked dirty and removed from the map; an id that
is only in collected_envs is left untouched. -/
def DefaultEnvCollection.delete_env (st : DefaultEnvCollection)
    (env_id : String) : DefaultEnvCollection :=
  if containsKey st.single_envs env_id then
    { st with
        single_envs_dirty := st.single_envs_dirty ++ [env_id]
        single_envs := bmRemove st.single_envs env_id }
  else
    st

/-- The two textual encodings of the SpecCodec: format A is JSON
(serde_json), format B is YAML (serde_yaml). -/
inductive SpecFormat where
  | json
  | yaml
deriving Repr, DecidableEq

/-- parse_model_spec (src/models/mod.rs lines 172-186): the content-based
fallback used when a path has no extension.  The abstract arguments are the
outcomes of the two serde parsers on the file content: some v when that
parser succeeds with v, none when it fails. -/
def parse_model_spec {α : Type} (json_result yaml_result : Option α) :
    Except String α :=
  match json_result with
  | some v => Except.ok v
  | none =>
    match yaml_result with
    | some v => Except.ok v
    | none => Except.error "Unable to parse specification"

/-- read_model_spec (src/models/mod.rs lines 101-140): extension json parses
as JSON only, extensions yaml and yml parse as YAML only, any other
extension is a hard error without looking at the content, and a path with no
extension falls back to parse_model_spec (JSON first, then YAML). -/
def read_model_spec {α : Type} (ext : Option String)
    (json_result yaml_result : Option α) : Except String α :=
  match ext with
  | some e =>
    if e = "json" then
      match json_result with
      | some v => Except.ok v
      | none => Except.error "Unable to parse specification json"
    else if e = "yaml" ∨ e = "yml" then
      match yaml_result with
      | some v => Except.ok v
      | none => Except.error "Unable to parse specification yaml"
    else
      Except.error "Unable to parse specification file, unknown extension"
  | none => parse_model_spec json_result yaml_result

/-- write_model_spec (src/models/mod.rs lines 188-200): the value is always
serialized with serde_json::to_string, whatever the extension of the target
path; the result records the format of the bytes written together with the
value.  DefaultEnvCollection::set_env calls this on a path ending in yaml
(environment.rs lines 647-653). -/
def write_model_spec {α : Type} (ext : Option String) (model_spec : α) :
    SpecFormat × α :=
  (SpecFormat.json, model_spec)

/-- The sync-status invariant of the Environment data model (spec section 3):
a record whose sync_status is Synced has its desired spec satisfied by its
actual spec. -/
def syncInvariant (e : VivaEnv) : Prop :=
  e.sync_status = EnvSyncStatus.Synced → e.spec.is_satisfied_by e.actual = true

instance (e : VivaEnv) : Decidable (syncInvariant e) := by
  unfold syncInvariant
  infer_instance

/-- Sample environment record used to instantiate hypotheses of the theorems
below on concrete input. -/
def envW : VivaEnv :=
  { id := "e1", collection_id := "default", env_path := "base/e1"
    spec := { channels := ["conda-forge"], pkg_specs := ["numpy"] }
    actual_spec_path := "base/e1/env_spec.json"
    actual := { channels := [], pkg_specs := [] }
    sync_status := EnvSyncStatus.NotSynced }

/-- Sample registry holding envW under id e1. -/
def regsW : List (String × VivaEnv) := [("e1", envW)]

/-- Sample spec (consolidated-document entry). -/
def specS1 : VivaEnvSpec := { channels := ["c1"], pkg_specs := ["p1"] }

/-- Sample spec (per-id file entry). -/
def specS2 : VivaEnvSpec := { channels := ["c2"], pkg_specs := ["p2"] }

/-- Sample desired spec. -/
def specD : VivaEnvSpec := { channels := ["conda-forge"], pkg_specs := ["numpy"] }

/-- Sample actual spec with extra entries beyond specD. -/
def specA : VivaEnvSpec :=
  { channels := ["conda-forge", "bioconda"], pkg_specs := ["numpy", "scipy"] }

/-- Sample spec to merge on top of specA. -/
def specX : VivaEnvSpec := { channels := ["extra"], pkg_specs := ["pandas"] }

end Viva

namespace Viva

/-- List containment agrees with membership for strings. -/
theorem contains_iff_mem (l : List String) (x : String) :
    l.contains x = true ↔ x ∈ l := by
  simp [List.contains, List.elem_iff]

/-- The new-channel filter is empty exactly when every new channel already
occurs among the original channels. -/
theorem check_for_new_channels_eq_nil_iff (orig new : List String) :
    check_for_new_channels orig new = [] ↔ ∀ x ∈ new, x ∈ orig := by
  induction new with
  | nil => simp [check_for_new_channels]
  | cons c rest ih =>
    by_cases h : orig.contains c = true
    · have hc : c ∈ orig := (contains_iff_mem orig c).mp h
      simp only [check_for_new_channels, if_pos h, ih, List.mem_cons]
      constructor
      · intro hall x hx
        cases hx with
        | inl hx => exact hx ▸ hc
        | inr hx => exact hall x hx
      · intro hall x hx
        exact hall x (Or.inr hx)
    · have hc : c ∉ orig := fun hm => h ((contains_iff_mem orig c).mpr hm)
      simp only [check_for_new_channels, if_neg h]
      constructor
      · intro hcons
        exact absurd hcons (List.cons_ne_nil _ _)
      · intro hall
        exact absurd (hall c (List.mem_cons_self c rest)) hc

/-- The new-pkg-spec filter is empty exactly when every new pkg spec already
occurs among the original ones. -/
theorem check_for_new_pkg_specs_eq_nil_iff (orig new : List String) :
    check_for_new_pkg_specs orig new = [] ↔ ∀ x ∈ new, x ∈ orig := by
  induction new with
  | nil => simp [check_for_new_pkg_specs]
  | cons c rest ih =>
    by_cases h : orig.contains c = true
    · have hc : c ∈ orig := (contains_iff_mem orig c).mp h
      simp only [check_for_new_pkg_specs, if_pos h, ih, List.mem_cons]
      constructor
      · intro hall x hx
        cases hx with
        | inl hx => exact hx ▸ hc
        | inr hx => exact hall x hx
      · intro hall x hx
        exact hall x (Or.inr hx)
    · have hc : c ∉ orig := fun hm => h ((contains_iff_mem orig c).mpr hm)
      simp only [check_for_new_pkg_specs, if_neg h]
      constructor
      · intro hcons
        exact absurd hcons (List.cons_ne_nil _ _)
      · intro hall
        exact absurd (hall c (List.mem_cons_self c rest)) hc

/-- Characterization of is_satisfied_by as two one-directional containments:
every desired channel occurs among the actual channels and every desired pkg
spec among the actual pkg specs. -/
theorem is_satisfied_by_iff (d a : VivaEnvSpec) :
    d.is_satisfied_by a = true ↔
      ((∀ c ∈ d.channels, c ∈ a.channels) ∧
        (∀ p ∈ d.pkg_specs, p ∈ a.pkg_specs)) := by
  rw [← check_for_new_channels_eq_nil_iff a.channels d.channels,
    ← check_for_new_pkg_specs_eq_nil_iff a.pkg_specs d.pkg_specs]
  by_cases h1 : check_for_new_channels a.channels d.channels = [] <;>
    by_cases h2 : check_for_new_pkg_specs a.pkg_specs d.pkg_specs = [] <;>
      simp [VivaEnvSpec.is_satisfied_by, List.isEmpty_iff, h1, h2]

/-- Satisfaction is reflexive. -/
theorem is_satisfied_by_refl (s : VivaEnvSpec) :
    s.is_satisfied_by s = true := by
  rw [is_satisfied_by_iff]
  exact ⟨fun c hc => hc, fun p hp => hp⟩

/-- The source equality on specs is reflexive. -/
theorem specEq_refl (s : VivaEnvSpec) : specEq s s = true := by
  simp [specEq]

/-- Membership in an addDistinct result is membership in either operand. -/
theorem mem_addDistinct (cur l : List String) (x : String) :
    x ∈ addDistinct cur l ↔ x ∈ cur ∨ x ∈ l := by
  induction l generalizing cur with
  | nil => simp [addDistinct]
  | cons y rest ih =>
    by_cases h : cur.contains y = true
    · have hy : y ∈ cur := (contains_iff_mem cur y).mp h
      simp only [addDistinct, if_pos h, ih, List.mem_cons]
      constructor
      · intro hx
        cases hx with
        | inl hx => exact Or.inl hx
        | inr hx => exact Or.inr (Or.inr hx)
      · intro hx
        rcases hx with hx | hx | hx
        · exact Or.inl hx
        · exact Or.inl (hx ▸ hy)
        · exact Or.inr hx
    · simp only [addDistinct, if_neg h, ih, List.mem_append, List.mem_cons,
        List.mem_singleton]
      tauto

/-- addDistinct is the identity when every element to add is already
present. -/
theorem addDistinct_eq_self (cur l : List String)
    (h : ∀ x ∈ l, x ∈ cur) : addDistinct cur l = cur := by
  induction l with
  | nil => rfl
  | cons y rest ih =>
    have hy : cur.contains y = true :=
      (contains_iff_mem cur y).mpr (h y (List.mem_cons_self y rest))
    simp only [addDistinct, if_pos hy]
    exact ih (fun x hx => h x (List.mem_cons_of_mem y hx))

end Viva

namespace Viva

/-- Recomputing the sync status yields Synced exactly on satisfaction. -/
theorem check_sync_status_eq (e : VivaEnv) :
    e.check_and_update_sync_status.sync_status =
      (if e.spec.is_satisfied_by e.actual = true then EnvSyncStatus.Synced
        else EnvSyncStatus.NotSynced) := by
  unfold VivaEnv.check_and_update_sync_status
  cases h : e.spec.is_satisfied_by e.actual <;> simp [h]

/-- check_and_update_sync_status establishes the sync invariant. -/
theorem syncInvariant_check (e : VivaEnv) :
    syncInvariant e.check_and_update_sync_status := by
  intro h
  rw [check_sync_status_eq] at h
  by_cases hs : e.spec.is_satisfied_by e.actual = true
  · exact hs
  · rw [if_neg hs] at h
    exact absurd h (by decide)

/-- add_channels establishes the sync invariant (it ends in a recheck). -/
theorem syncInvariant_add_channels (e : VivaEnv) (channels : List String) :
    syncInvariant (e.add_channels channels) :=
  syncInvariant_check (addChannelsLoop e channels)

/-- add_pkg_specs establishes the sync invariant (it ends in a recheck). -/
theorem syncInvariant_add_pkg_specs (e : VivaEnv) (pkg_specs : List String) :
    syncInvariant (e.add_pkg_specs pkg_specs) :=
  syncInvariant_check (addPkgSpecsLoop e pkg_specs)

/-- merge_spec establishes the sync invariant. -/
theorem syncInvariant_merge_spec (e : VivaEnv) (s : VivaEnvSpec) :
    syncInvariant (e.merge_spec s) :=
  syncInvariant_add_pkg_specs (e.add_channels s.channels) s.pkg_specs

/-- remove_channels preserves the sync invariant: shrinking the desired
channel list cannot break satisfaction. -/
theorem syncInvariant_remove_channels (e : VivaEnv) (channels : List String)
    (h : syncInvariant e) : syncInvariant (e.remove_channels channels) := by
  intro hst
  have hsat := h hst
  rw [is_satisfied_by_iff] at hsat
  show (e.remove_channels channels).spec.is_satisfied_by e.actual = true
  rw [is_satisfied_by_iff]
  refine ⟨?_, hsat.2⟩
  intro c hc
  exact hsat.1 c (List.mem_of_mem_filter hc)

/-- sync preserves the sync invariant whether the materializer succeeds or
fails. -/
theorem syncInvariant_sync (e : VivaEnv) (create_ok : Bool)
    (h : syncInvariant e) : syncInvariant (e.sync create_ok).fst := by
  have hc := syncInvariant_check e
  simp only [VivaEnv.sync]
  split
  · split
    · exact hc
    · split
      · intro _
        exact is_satisfied_by_refl _
      · exact hc
  · split
    · exact h
    · split
      · intro _
        exact is_satisfied_by_refl _
      · exact h

/-- An environment record fresh out of create_env_instance has status
Unknown, so the sync invariant holds vacuously. -/
theorem syncInvariant_create_env_instance
    (base_env_path env_id collection_id : String)
    (env_spec on_disk_actual : Option VivaEnvSpec) :
    syncInvariant
      (create_env_instance base_env_path env_id collection_id env_spec
        on_disk_actual) := by
  intro h
  have hs :
      (create_env_instance base_env_path env_id collection_id env_spec
        on_disk_actual).sync_status = EnvSyncStatus.Unknown := rfl
  rw [hs] at h
  exact absurd h (by decide)

end Viva

namespace Viva

/-- Looking up the freshly inserted key yields the inserted value. -/
theorem bmGet_bmInsert_same {α : Type} (m : List (String × α)) (k : String)
    (v : α) : bmGet (bmInsert m k v) k = some v := by
  induction m with
  | nil => simp [bmInsert, bmGet]
  | cons p rest ih =>
    obtain ⟨k1, v1⟩ := p
    show bmGet
      (if k < k1 then (k, v) :: (k1, v1) :: rest
        else if k = k1 then (k, v) :: rest
        else (k1, v1) :: bmInsert rest k v) k = some v
    by_cases hlt : k < k1
    · rw [if_pos hlt]
      simp [bmGet]
    · rw [if_neg hlt]
      by_cases heq : k = k1
      · rw [if_pos heq]
        simp [bmGet]
      · rw [if_neg heq]
        simp only [bmGet]
        rw [if_neg heq, ih]

/-- Insertion does not change lookups at other keys. -/
theorem bmGet_bmInsert_ne {α : Type} (m : List (String × α)) (k x : String)
    (v : α) (h : x ≠ k) : bmGet (bmInsert m k v) x = bmGet m x := by
  induction m with
  | nil => simp [bmInsert, bmGet, h]
  | cons p rest ih =>
    obtain ⟨k1, v1⟩ := p
    show bmGet
      (if k < k1 then (k, v) :: (k1, v1) :: rest
        else if k = k1 then (k, v) :: rest
        else (k1, v1) :: bmInsert rest k v) x = bmGet ((k1, v1) :: rest) x
    by_cases hlt : k < k1
    · rw [if_pos hlt]
      simp [bmGet, h]
    · rw [if_neg hlt]
      by_cases heq : k = k1
      · subst heq
        rw [if_pos rfl]
        simp [bmGet, h]
      · rw [if_neg heq]
        simp only [bmGet]
        by_cases hx : x = k1
        · rw [if_pos hx, if_pos hx]
        · rw [if_neg hx, if_neg hx, ih]

/-- Both branches of the per-id load loop insert the entry into
single_envs. -/
theorem loadEntry_single_envs (st : DefaultEnvCollection)
    (p : String × VivaEnvSpec) :
    (loadEntry st p).single_envs = bmInsert st.single_envs p.fst p.snd := by
  unfold loadEntry
  split <;> rfl

/-- Folding load entries none of which has key x leaves the lookup of x in
single_envs unchanged. -/
theorem foldl_loadEntry_single_get_of_not_mem
    (entries : List (String × VivaEnvSpec)) (st : DefaultEnvCollection)
    (x : String) (h : ∀ p ∈ entries, p.fst ≠ x) :
    bmGet (entries.foldl loadEntry st).single_envs x =
      bmGet st.single_envs x := by
  induction entries generalizing st with
  | nil => rfl
  | cons p rest ih =>
    have hp : p.fst ≠ x := h p (List.mem_cons_self p rest)
    rw [List.foldl_cons,
      ih (loadEntry st p) (fun q hq => h q (List.mem_cons_of_mem p hq)),
      loadEntry_single_envs, bmGet_bmInsert_ne _ _ _ _ (fun hx => hp hx.symm)]

/-- When every entry keyed x carries the value S and at least one such entry
occurs, the per-id load loop ends with x bound to S in single_envs. -/
theorem foldl_loadEntry_single_get (entries : List (String × VivaEnvSpec))
    (st : DefaultEnvCollection) (x : String) (S : VivaEnvSpec)
    (hmem : (x, S) ∈ entries)
    (hall : ∀ p ∈ entries, p.fst = x → p.snd = S) :
    bmGet (entries.foldl loadEntry st).single_envs x = some S := by
  induction entries generalizing st with
  | nil => exact absurd hmem (List.not_mem_nil _)
  | cons p rest ih =>
    rw [List.foldl_cons]
    by_cases hrest : ∀ q ∈ rest, q.fst ≠ x
    · have hpx : p = (x, S) := by
        cases hmem with
        | head => rfl
        | tail _ hm => exact absurd rfl (hrest _ hm)
      subst hpx
      rw [foldl_loadEntry_single_get_of_not_mem rest _ x hrest,
        loadEntry_single_envs]
      exact bmGet_bmInsert_same _ _ _
    · push_neg at hrest
      obtain ⟨q, hq, hqx⟩ := hrest
      have hqS : q = (x, S) := by
        have := hall q (List.mem_cons_of_mem p hq) hqx
        exact Prod.ext hqx this
      exact ih (loadEntry st p) (hqS ▸ hq)
        (fun r hr hrx => hall r (List.mem_cons_of_mem p hr) hrx)

end Viva

namespace Viva

/-- C1: for every environment record, sync_status = Synced implies that
spec.is_satisfied_by(actual) holds, and this invariant is preserved by every
operation on the record: creation (create_env_instance, the only way records
are created, always starts at Unknown), add_channels, add_pkg_specs,
merge_spec, remove_channels, check_and_update_sync_status, and sync, whether
the materializer succeeds or fails. -/
theorem claim1_sync_invariant_preserved (e : VivaEnv)
    (chs ps : List String) (s : VivaEnvSpec) (create_ok : Bool)
    (basePath envId colId : String) (sp od : Option VivaEnvSpec)
    (h : syncInvariant e) :
    syncInvariant (create_env_instance basePath envId colId sp od) ∧
    syncInvariant (e.add_channels chs) ∧
    syncInvariant (e.add_pkg_specs ps) ∧
    syncInvariant (e.merge_spec s) ∧
    syncInvariant (e.remove_channels chs) ∧
    syncInvariant e.check_and_update_sync_status ∧
    syncInvariant (e.sync create_ok).fst :=
  ⟨syncInvariant_create_env_instance basePath envId colId sp od,
    syncInvariant_add_channels e chs,
    syncInvariant_add_pkg_specs e ps,
    syncInvariant_merge_spec e s,
    syncInvariant_remove_channels e chs h,
    syncInvariant_check e,
    syncInvariant_sync e create_ok h⟩

/-- Witness for C1: the invariant and the preserved conclusions evaluated on
the concrete record envW. -/
theorem claim1_witness :
    syncInvariant envW ∧
      (syncInvariant (create_env_instance "base" "e2" "default" none none) ∧
        syncInvariant (envW.add_channels ["c2"]) ∧
        syncInvariant (envW.add_pkg_specs ["p2"]) ∧
        syncInvariant (envW.merge_spec specX) ∧
        syncInvariant (envW.remove_channels ["conda-forge"]) ∧
        syncInvariant envW.check_and_update_sync_status ∧
        syncInvariant (envW.sync true).fst) :=
  ⟨by decide,
    claim1_sync_invariant_preserved envW ["c2"] ["p2"] specX true "base" "e2"
      "default" none none (by decide)⟩

/-- C2 counterexample: an environment registered from a collection at load
time with nothing materialized (no on-disk actual record) has sync_status
Unknown, not NotSynced, refuting both the eager computation and the
never-Unknown parts of the claim. -/
theorem claim2_counterexample :
    (create_env_instance "base" "e1" "default" none none).sync_status =
        EnvSyncStatus.Unknown ∧
      (create_env_instance "base" "e1" "default" none none).sync_status ≠
        EnvSyncStatus.NotSynced :=
  ⟨rfl, by decide⟩

/-- C2 (amended): whenever an environment is registered from a collection at
registry load time, its actual spec is read from the on-disk actual record
when one exists and defaults to the empty spec otherwise, while its
sync_status is always Unknown at load time; the status is only computed
later (lazily) by check_and_update_sync_status. -/
theorem claim2_amended_load_status (basePath envId colId : String)
    (sp od : Option VivaEnvSpec) :
    (create_env_instance basePath envId colId sp od).sync_status =
        EnvSyncStatus.Unknown ∧
      (create_env_instance basePath envId colId sp od).actual =
        od.getD { channels := [], pkg_specs := [] } ∧
      (create_env_instance basePath envId colId sp od).spec =
        sp.getD VivaEnvSpec.new := by
  refine ⟨rfl, ?_, ?_⟩ <;> cases od <;> cases sp <;> rfl

/-- C3: when the consolidated document maps id x to S1 and the per-id
subdirectory holds a file for x with spec S2, loading the collection yields
S2 for x: the per-id file overrides the consolidated entry. -/
theorem claim3_override_precedence
    (consolidated entries : List (String × VivaEnvSpec)) (x : String)
    (S1 S2 : VivaEnvSpec) (hcons : bmGet consolidated x = some S1)
    (hmem : (x, S2) ∈ entries)
    (hall : ∀ p ∈ entries, p.fst = x → p.snd = S2) :
    (load_registered_envs consolidated entries).get_env x = some S2 := by
  have hget :
      bmGet (load_registered_envs consolidated entries).single_envs x =
        some S2 := by
    unfold load_registered_envs
    exact foldl_loadEntry_single_get entries _ x S2 hmem hall
  unfold DefaultEnvCollection.get_env
  rw [hget]
  simp

/-- Witness for C3 on a concrete collection: consolidated entry x maps to
specS1, the per-id file for x holds specS2, and loading yields specS2. -/
theorem claim3_witness :
    (bmGet [("x", specS1)] "x" = some specS1 ∧
      ("x", specS2) ∈ [("x", specS2)] ∧
      ∀ p ∈ [("x", specS2)], p.fst = "x" → p.snd = specS2) ∧
    (load_registered_envs [("x", specS1)] [("x", specS2)]).get_env "x" =
      some specS2 :=
  ⟨⟨by decide, by decide, by decide⟩,
    claim3_override_precedence [("x", specS1)] [("x", specS2)] "x" specS1
      specS2 (by decide) (by decide) (by decide)⟩

/-- C4, evaluated at the failing input: load a collection whose consolidated
document holds id x and whose per-id subdirectory is empty, then set_env x;
get_env_ids then reports x twice, because set_env inserts into single_envs
without dropping the consolidated entry (the TODO at environment.rs line
651). -/
theorem claim4_duplicate_listing :
    ((load_registered_envs [("x", specS1)] []).set_env "x" specS2).get_env_ids
      = ["x", "x"] := rfl

/-- C5: is_satisfied_by(desired, actual) returns true iff every element of
desired.channels is an element of actual.channels and every element of
desired.pkg_specs is an element of actual.pkg_specs; one-directional
containment, so actual may contain extra entries and still satisfy. -/
theorem claim5_satisfaction_containment (d a : VivaEnvSpec) :
    d.is_satisfied_by a = true ↔
      ((∀ c ∈ d.channels, c ∈ a.channels) ∧
        (∀ p ∈ d.pkg_specs, p ∈ a.pkg_specs)) :=
  is_satisfied_by_iff d a

/-- C6: merging is idempotent: union_merge(union_merge(a,b), b) equals
union_merge(a,b) under the source spec equality (order-insensitive on
channels, order-sensitive on pkg_specs); in fact the two results are equal
as records. -/
theorem claim6_merge_idempotent (a b : VivaEnvSpec) :
    specEq (union_merge (union_merge a b) b) (union_merge a b) = true := by
  have hch : addDistinct (addDistinct a.channels b.channels) b.channels =
      addDistinct a.channels b.channels :=
    addDistinct_eq_self _ _
      (fun x hx => (mem_addDistinct _ _ x).mpr (Or.inr hx))
  have hpk : addDistinct (addDistinct a.pkg_specs b.pkg_specs) b.pkg_specs =
      addDistinct a.pkg_specs b.pkg_specs :=
    addDistinct_eq_self _ _
      (fun x hx => (mem_addDistinct _ _ x).mpr (Or.inr hx))
  have h : union_merge (union_merge a b) b = union_merge a b := by
    show VivaEnvSpec.mk
        (addDistinct (addDistinct a.channels b.channels) b.channels)
        (addDistinct (addDistinct a.pkg_specs b.pkg_specs) b.pkg_specs) =
      VivaEnvSpec.mk (addDistinct a.channels b.channels)
        (addDistinct a.pkg_specs b.pkg_specs)
    rw [hch, hpk]
  rw [h]
  exact specEq_refl _

/-- C7: satisfaction is monotone under merge: a desired spec satisfied by a
stays satisfied by union_merge(a, x) for any x. -/
theorem claim7_satisfaction_monotone (d a x : VivaEnvSpec)
    (h : d.is_satisfied_by a = true) :
    d.is_satisfied_by (union_merge a x) = true := by
  rw [is_satisfied_by_iff] at h ⊢
  refine ⟨fun c hc => ?_, fun p hp => ?_⟩
  · exact (mem_addDistinct _ _ c).mpr (Or.inl (h.1 c hc))
  · exact (mem_addDistinct _ _ p).mpr (Or.inl (h.2 p hp))

/-- Witness for C7 on concrete specs: specD is satisfied by specA and stays
satisfied after merging specX into specA. -/
theorem claim7_witness :
    specD.is_satisfied_by specA = true ∧
      specD.is_satisfied_by (union_merge specA specX) = true :=
  ⟨by decide, claim7_satisfaction_monotone specD specA specX (by decide)⟩

/-- C8: registering an id already present fails with a duplicate-id error
when allow_duplicate is false; with allow_duplicate true the call is a no-op
returning false with the registry unchanged (first registration wins). -/
theorem claim8_duplicate_registration (regs : List (String × VivaEnv))
    (basePath envId colId : String) (s : VivaEnvSpec)
    (od : Option VivaEnvSpec) (h : containsKey regs envId = true) :
    add_registered_env regs basePath envId colId s od false =
        Except.error ("Duplicate environment: " ++ envId) ∧
      add_registered_env regs basePath envId colId s od true =
        Except.ok (regs, false) := by
  unfold add_registered_env
  rw [h]
  exact ⟨rfl, rfl⟩

/-- Witness for C8 on a concrete registry that already holds id e1. -/
theorem claim8_witness :
    containsKey regsW "e1" = true ∧
      (add_registered_env regsW "base" "e1" "default" specS1 none false =
          Except.error ("Duplicate environment: " ++ "e1") ∧
        add_registered_env regsW "base" "e1" "default" specS1 none true =
          Except.ok (regsW, false)) :=
  ⟨by decide,
    claim8_duplicate_registration regsW "base" "e1" "default" specS1 none
      (by decide)⟩

/-- C9 counterexample: a path with extension yaml is not written as format B;
write_model_spec always serializes with serde_json (format A), and set_env
hands it exactly such an id.yaml path. -/
theorem claim9_counterexample :
    (write_model_spec (some "yaml") specS1).fst = SpecFormat.json ∧
      SpecFormat.json ≠ SpecFormat.yaml :=
  ⟨rfl, by decide⟩

/-- C9 (amended): decoding selects the format from the extension (.json reads
as JSON only, .yaml and .yml as YAML only, no extension tries JSON then
falls back to YAML, any other extension is a hard error with no
content-based fallback), while encoding always writes JSON whatever the
path's extension. -/
theorem claim9_amended_codec_dispatch {α : Type} (jr yr : Option α) (v : α)
    (e : String) (ext : Option String)
    (he : e ≠ "json" ∧ e ≠ "yaml" ∧ e ≠ "yml") :
    read_model_spec (some "json") (some v) yr = Except.ok v ∧
    read_model_spec (some "json") (none : Option α) yr =
      Except.error "Unable to parse specification json" ∧
    read_model_spec (some "yaml") jr (some v) = Except.ok v ∧
    read_model_spec (some "yml") jr (some v) = Except.ok v ∧
    read_model_spec (some "yaml") jr (none : Option α) =
      Except.error "Unable to parse specification yaml" ∧
    read_model_spec none (some v) yr = Except.ok v ∧
    read_model_spec none (none : Option α) (some v) = Except.ok v ∧
    read_model_spec (some e) jr yr =
      Except.error "Unable to parse specification file, unknown extension" ∧
    (write_model_spec ext v).fst = SpecFormat.json := by
  refine ⟨rfl, rfl, rfl, rfl, rfl, rfl, rfl, ?_, rfl⟩
  simp only [read_model_spec]
  rw [if_neg he.1, if_neg (fun hor => hor.elim he.2.1 he.2.2)]

/-- Witness for C9 (amended) at concrete parses and the extension toml. -/
theorem claim9_witness :
    (("toml" : String) ≠ "json" ∧ ("toml" : String) ≠ "yaml" ∧
        ("toml" : String) ≠ "yml") ∧
      (read_model_spec (some "json") (some 3) (some 2) = Except.ok 3 ∧
        read_model_spec (some "json") (none : Option Nat) (some 2) =
          Except.error "Unable to parse specification json" ∧
        read_model_spec (some "yaml") (some 1) (some 3) = Except.ok 3 ∧
        read_model_spec (some "yml") (some 1) (some 3) = Except.ok 3 ∧
        read_model_spec (some "yaml") (some 1) (none : Option Nat) =
          Except.error "Unable to parse specification yaml" ∧
        read_model_spec none (some 3) (some 2) = Except.ok 3 ∧
        read_model_spec none (none : Option Nat) (some 3) = Except.ok 3 ∧
        read_model_spec (some "toml") (some 1) (some 2) =
          Except.error "Unable to parse specification file, unknown extension" ∧
        (write_model_spec none 3).fst = SpecFormat.json) :=
  ⟨by decide,
    claim9_amended_codec_dispatch (some 1) (some 2) 3 "toml" none (by decide)⟩

/-- C10: remove_channels removes the given channels from spec.channels and
changes nothing else on the record: sync_status, actual, pkg_specs and every
other field are untouched, unconditionally, so in particular also when the
removal changes whether spec.is_satisfied_by(actual) holds. -/
theorem claim10_remove_channels_frame (e : VivaEnv)
    (channels : List String) :
    (e.remove_channels channels).sync_status = e.sync_status ∧
    (e.remove_channels channels).actual = e.actual ∧
    (e.remove_channels channels).spec.pkg_specs = e.spec.pkg_specs ∧
    (e.remove_channels channels).id = e.id ∧
    (e.remove_channels channels).collection_id = e.collection_id ∧
    (e.remove_channels channels).env_path = e.env_path ∧
    (e.remove_channels channels).actual_spec_path = e.actual_spec_path ∧
    (e.remove_channels channels).spec.channels =
      e.spec.channels.filter (fun c => ¬ channels.contains c) :=
  ⟨rfl, rfl, rfl, rfl, rfl, rfl, rfl, rfl⟩

end Viva
